import Mathlib

/-!
Verification of the two presentational components of the repository
`wontonsoup99/shopify-youngliving`:

* `TestimonialsItems` (grouped-items layout), from `src/unnamed/part_000`;
* `ImageGalleryItem` (labeled image tile), from
  `src/app/sections/image-gallery/image.tsx`;

together with the configuration schemas both files export.

Props objects are modelled as association lists `List (String × JSVal β)`
where later entries shadow earlier ones (JS object semantics); `β` is the
type of opaque renderable child nodes.  The `cva` / `clsx` class machinery
from the `class-variance-authority` and `clsx` dependencies is modelled
explicitly (`cvaResolve`, `cx`, `cvaClass`), following the published
implementation of those libraries: a variant key that is supplied looks the
value up in the variant table and contributes no class on a miss, while the
declared `defaultVariants` entry is consulted only when the prop is
`undefined`; `clsx`/`cx` drop falsy entries (`undefined` and `""`) and join
the rest with single spaces.
-/

/-- Structured image record of the `WeaverseImage` type used by
`image.tsx` (the two fields the component reads or constructs). -/
structure WeaverseImage where
  url : String
  altText : String
deriving DecidableEq, Repr

/-- A JavaScript property value, as far as the two components inspect
them: numbers, strings, booleans, arrays of child nodes, structured image
records, and `undefined`.  `β` is the type of opaque child nodes. -/
inductive JSVal (β : Type) : Type where
  | num (n : Int)
  | str (s : String)
  | bool (b : Bool)
  | nodes (cs : List β)
  | imgObj (o : WeaverseImage)
  | undefined
deriving DecidableEq, Repr

/-- Lookup in a JS object modelled as an association list: a later entry
with the same key shadows an earlier one (last one wins), as in
`{...a, ...b}` object construction and JSX attribute lists. -/
def jsLookup {α : Type} : List (String × α) → String → Option α
  | [], _ => none
  | kv :: l, k =>
    match jsLookup l k with
    | some v => some v
    | none => if kv.1 = k then some kv.2 else none

/-- Rest-destructuring `let { k₁, ..., kₙ, ...rest } = props`: `rest`
keeps every entry whose key is not among the destructured names. -/
def omitKeys {α : Type} (ks : List String) (l : List (String × α)) :
    List (String × α) :=
  l.filter (fun kv => !decide (kv.1 ∈ ks))

/-- `Array.prototype.filter(( _ , i) => p i)` starting at index `i`:
keeps the elements whose (zero-based) index satisfies `p`, in order. -/
def filterIdxAux {β : Type} (p : Nat → Bool) : Nat → List β → List β
  | _, [] => []
  | i, c :: cs =>
    if p i then c :: filterIdxAux p (i + 1) cs else filterIdxAux p (i + 1) cs

/-- `children.filter((_, i) => p i)` (indices start at 0). -/
def jsFilterWithIndex {β : Type} (p : Nat → Bool) (cs : List β) : List β :=
  filterIdxAux p 0 cs

/-- Track `r` of the grouped layout: `children.filter((_, i) => i % 3 === r)`
(`part_000`, lines 35/38/41). -/
def track {β : Type} (r : Nat) (cs : List β) : List β :=
  jsFilterWithIndex (fun i => i % 3 == r) cs

/-- Variant resolution of `class-variance-authority`: a supplied value is
looked up in the variant table (a miss contributes no class); the declared
default is looked up only when the prop is absent/`undefined`. -/
def cvaResolve {κ : Type} (table : κ → Option String) (dflt : κ) :
    Option κ → Option String
  | some v => table v
  | none => table dflt

/-- `cx`/`clsx` filtering: drop absent classes and empty strings. -/
def cx (cs : List (Option String)) : List String :=
  (cs.filterMap id).filter (fun s => !(s == ""))

/-- The class string produced by a `cva` call: base classes followed by the
non-falsy resolved variant classes, joined by single spaces. -/
def cvaClass (base : String) (variantCls : List (Option String)) : String :=
  String.intercalate " " (base :: cx variantCls)

/-- The `gap` variant table of the grouped layout (`part_000`, lines 12-17). -/
def gapClass (v : Int) : Option String :=
  if v = 16 then some "gap-4"
  else if v = 24 then some "gap-6"
  else if v = 32 then some "gap-8"
  else if v = 40 then some "gap-10"
  else none

/-- `variants({ gap })` of the grouped layout (`part_000`, lines 10-22):
base classes `grid lg:grid-cols-3`, gap table, `defaultVariants.gap = 32`.
`clsx` of the single resulting string is that string. -/
def testimonialsClassName (gap : Option Int) : String :=
  cvaClass "grid lg:grid-cols-3" [cvaResolve gapClass 32 gap]

/-- Keys destructured by `TestimonialsItems` (`part_000`, line 30). -/
def testimonialsDeclaredParams : List String := ["gap", "children"]

/-- The `gap` prop read by the destructuring on `part_000` line 30
(per its type `VariantProps`, a number or absent). -/
def gapOf {β : Type} (props : List (String × JSVal β)) : Option Int :=
  match jsLookup props "gap" with
  | some (.num n) => some n
  | _ => none

/-- The `children` prop; `children?.filter(...)` renders nothing when
`children` is absent, which coincides with the empty list. -/
def childrenOf {β : Type} (props : List (String × JSVal β)) : List β :=
  match jsLookup props "children" with
  | some (.nodes cs) => cs
  | _ => []

/-- The rendered root `<div>` of the grouped layout: its attribute list
(the `...rest` spread followed by the explicit `className`, later entries
shadowing earlier ones) and its three child tracks. -/
structure TestimonialsRender (β : Type) where
  attrs : List (String × JSVal β)
  tracks : List (List β)
deriving DecidableEq, Repr

/-- `TestimonialsItems` (`part_000`, lines 28-46): destructures
`{ gap, children, ...rest }`, spreads `rest` on the root div, computes
`className={clsx(variants({ gap }))}`, and renders three track divs
holding `children?.filter((_, i) => i % 3 === r)` for `r = 0, 1, 2`. -/
def TestimonialsItems {β : Type} (props : List (String × JSVal β)) :
    TestimonialsRender β :=
  { attrs := omitKeys testimonialsDeclaredParams props ++
      [("className", .str (testimonialsClassName (gapOf props)))]
    tracks := [track 0 (childrenOf props), track 1 (childrenOf props),
      track 2 (childrenOf props)] }

/-- The `columnSpan` variant table of the image tile (`image.tsx`,
lines 15-20). -/
def columnSpanClass (v : Int) : Option String :=
  if v = 1 then some "col-span-1"
  else if v = 2 then some "col-span-2"
  else if v = 3 then some "col-span-3"
  else if v = 4 then some "col-span-4"
  else none

/-- The `borderRadius` variant table of the image tile (`image.tsx`,
lines 21-35); note radius `0` maps to the empty class. -/
def borderRadiusClass (v : Int) : Option String :=
  if v = 0 then some ""
  else if v = 2 then some "rounded-sm"
  else if v = 4 then some "rounded"
  else if v = 6 then some "rounded-md"
  else if v = 8 then some "rounded-lg"
  else if v = 10 then some "rounded-[10px]"
  else if v = 12 then some "rounded-xl"
  else if v = 14 then some "rounded-[14px]"
  else if v = 16 then some "rounded-2xl"
  else if v = 18 then some "rounded-[18px]"
  else if v = 20 then some "rounded-[20px]"
  else if v = 22 then some "rounded-[22px]"
  else if v = 24 then some "rounded-3xl"
  else none

/-- The `hideOnMobile` variant table of the image tile (`image.tsx`,
lines 36-39). -/
def hideOnMobileClass (b : Bool) : Option String :=
  if b then some "hidden sm:block" else some ""

/-- `variants({ columnSpan, borderRadius, hideOnMobile })` of the image
tile (`image.tsx`, lines 13-46): base classes plus the three variant
tables with `defaultVariants` `columnSpan = 1`, `borderRadius = 8`,
`hideOnMobile = false`. -/
def imageVariants (cs br : Option Int) (hm : Option Bool) : String :=
  cvaClass "relative h-[--image-height]"
    [cvaResolve columnSpanClass 1 cs,
     cvaResolve borderRadiusClass 8 br,
     cvaResolve hideOnMobileClass false hm]

/-- `clsx("relative overflow-hidden", variants(...))` (`image.tsx`,
lines 90-93). -/
def imageContainerClass (cs br : Option Int) (hm : Option Bool) : String :=
  String.intercalate " " ["relative overflow-hidden", imageVariants cs br hm]

/-- The `fontSizeClasses` lookup object (`image.tsx`, lines 73-79);
a JS object lookup misses with `undefined` outside the listed keys. -/
def fontSizeClasses (s : String) : Option String :=
  if s = "xs" then some "text-xs"
  else if s = "sm" then some "text-sm"
  else if s = "base" then some "text-base"
  else if s = "lg" then some "text-lg"
  else if s = "xl" then some "text-xl"
  else none

/-- The `fontWeightClasses` lookup object (`image.tsx`, lines 81-86). -/
def fontWeightClasses (s : String) : Option String :=
  if s = "normal" then some "font-normal"
  else if s = "medium" then some "font-medium"
  else if s = "semibold" then some "font-semibold"
  else if s = "bold" then some "font-bold"
  else none

/-- Keys destructured by `ImageGalleryItem` (`image.tsx`, lines 60-70). -/
def imageDeclaredParams : List String :=
  ["src", "columnSpan", "borderRadius", "hideOnMobile", "label",
   "labelFontSize", "labelColor", "labelFontWeight"]

/-- `typeof src === "object" ? src : { url: src, altText: src }`
(`image.tsx`, line 71).  A structured record is not an object of type
string, so it passes through; a bare string is wrapped; values outside
the TS type `WeaverseImage` (string | object) do not occur and are
modelled as `undefined`. -/
def normalizeSrc {β : Type} : JSVal β → JSVal β
  | .imgObj o => .imgObj o
  | .str s => .imgObj { url := s, altText := s }
  | _ => .undefined

/-- The `src` prop as destructured on `image.tsx` line 61. -/
def srcOf {β : Type} (props : List (String × JSVal β)) : JSVal β :=
  match jsLookup props "src" with
  | some v => v
  | none => .undefined

/-- The `columnSpan` prop (a number per `VariantProps`, or absent). -/
def columnSpanOf {β : Type} (props : List (String × JSVal β)) : Option Int :=
  match jsLookup props "columnSpan" with
  | some (.num n) => some n
  | _ => none

/-- The `borderRadius` prop (a number per `VariantProps`, or absent). -/
def borderRadiusOf {β : Type} (props : List (String × JSVal β)) : Option Int :=
  match jsLookup props "borderRadius" with
  | some (.num n) => some n
  | _ => none

/-- The `hideOnMobile` prop (a boolean per `VariantProps`, or absent). -/
def hideOnMobileOf {β : Type} (props : List (String × JSVal β)) : Option Bool :=
  match jsLookup props "hideOnMobile" with
  | some (.bool b) => some b
  | _ => none

/-- The `label` prop (`label?: string`). -/
def labelOf {β : Type} (props : List (String × JSVal β)) : Option String :=
  match jsLookup props "label" with
  | some (.str s) => some s
  | _ => none

/-- The `labelFontSize` prop with its destructuring default
`labelFontSize = 'base'` (`image.tsx`, line 66). -/
def labelFontSizeOf {β : Type} (props : List (String × JSVal β)) : String :=
  match jsLookup props "labelFontSize" with
  | some (.str s) => s
  | _ => "base"

/-- The `labelFontWeight` prop with its destructuring default
`labelFontWeight = 'normal'` (`image.tsx`, line 68). -/
def labelFontWeightOf {β : Type} (props : List (String × JSVal β)) : String :=
  match jsLookup props "labelFontWeight" with
  | some (.str s) => s
  | _ => "normal"

/-- `style={labelColor ? { color: labelColor } : undefined}` (`image.tsx`,
line 113): an inline color exactly when `labelColor` is a truthy string. -/
def captionColorStyle {β : Type} (props : List (String × JSVal β)) :
    Option String :=
  match jsLookup props "labelColor" with
  | some (.str c) => if c = "" then none else some c
  | _ => none

/-- The caption `className` (`image.tsx`, lines 108-112):
`clsx("mt-2 text-center font-sans", fontSizeClasses[...], fontWeightClasses[...])`. -/
def captionClassName {β : Type} (props : List (String × JSVal β)) : String :=
  String.intercalate " " ("mt-2 text-center font-sans" ::
    cx [fontSizeClasses (labelFontSizeOf props),
        fontWeightClasses (labelFontWeightOf props)])

/-- A rendered caption: its class string, optional inline color, text. -/
structure CaptionRender where
  className : String
  colorStyle : Option String
  text : String
deriving DecidableEq, Repr

/-- `{label && (<div ...>{label}</div>)}` (`image.tsx`, lines 106-117):
the caption renders exactly when `label` is a truthy (non-empty) string. -/
def captionOf {β : Type} (props : List (String × JSVal β)) :
    Option CaptionRender :=
  match labelOf props with
  | some s =>
    if s = "" then none
    else some { className := captionClassName props
                colorStyle := captionColorStyle props
                text := s }
  | none => none

/-- The explicit attributes written on the `<Image ... />` element after
the `{...rest}` spread (`image.tsx`, lines 94-104), `d` being the
normalized image descriptor passed as `data`. -/
def imageExtraAttrs {β : Type} (d : JSVal β) : List (String × JSVal β) :=
  [("className",
     .str "w-full h-full object-cover transition-transform duration-300 hover:scale-105"),
   ("data-motion", .str "slide-in"),
   ("loading", .str "lazy"),
   ("data", d),
   ("width", .num 800),
   ("height", .num 600),
   ("sizes", .str "(min-width: 45em) 50vw, 100vw")]

/-- The rendered image tile: container class of the clipped wrapper div,
the full attribute list handed to the `Image` renderer (spread `rest`
followed by the explicit attributes, later entries shadowing earlier
ones), and the optional caption. -/
structure ImageTileRender (β : Type) where
  containerClass : String
  imageAttrs : List (String × JSVal β)
  caption : Option CaptionRender
deriving DecidableEq, Repr

/-- `ImageGalleryItem` (`image.tsx`, lines 58-121). -/
def ImageGalleryItem {β : Type} (props : List (String × JSVal β)) :
    ImageTileRender β :=
  { containerClass := imageContainerClass (columnSpanOf props)
      (borderRadiusOf props) (hideOnMobileOf props)
    imageAttrs := omitKeys imageDeclaredParams props ++
      imageExtraAttrs (normalizeSrc (srcOf props))
    caption := captionOf props }

/-- A `defaultValue` in a configuration schema (string, number or boolean). -/
inductive SchemaDefault : Type where
  | str (s : String)
  | num (n : Int)
  | bool (b : Bool)
deriving DecidableEq, Repr

/-- The `configs` record of a schema input: optional `min`/`max`/`step`/
`unit` for ranges, `options` (label, value) for selects. -/
structure InputConfigs where
  min : Option Int
  max : Option Int
  step : Option Int
  unit : Option String
  options : List (String × String)
deriving DecidableEq, Repr

/-- One inspector input of a configuration schema. -/
structure SchemaInput where
  type : String
  name : String
  label : String
  configs : Option InputConfigs
  defaultValue : SchemaDefault
  placeholder : Option String
deriving DecidableEq, Repr

/-- One inspector group of a configuration schema. -/
structure InspectorGroup where
  group : String
  inputs : List SchemaInput
deriving DecidableEq, Repr

/-- An exported `HydrogenComponentSchema` (type tag, title, allowed child
types, inspector groups). -/
structure ComponentSchema where
  type : String
  title : String
  childTypes : List String
  inspector : List InspectorGroup
deriving DecidableEq, Repr

/-- The schema exported by `part_000` (lines 50-73). -/
def testimonialsSchema : ComponentSchema :=
  { type := "testimonials-items"
    title := "Items"
    childTypes := ["testimonial--item"]
    inspector :=
      [{ group := "Items"
         inputs :=
           [{ type := "range", name := "gap", label := "Items gap"
              configs := some { min := some 16, max := some 40, step := some 8
                                unit := some "px", options := [] }
              defaultValue := .num 32, placeholder := none }] }] }

/-- The schema exported by `image.tsx` (lines 125-219). -/
def imageGallerySchema : ComponentSchema :=
  { type := "image-gallery--item"
    title := "Image"
    childTypes := []
    inspector :=
      [{ group := "Image gallery item"
         inputs :=
           [{ type := "image", name := "src", label := "Image"
              configs := none
              defaultValue := .str
                "https://cdn.shopify.com/s/files/1/0838/0052/3057/files/h2-placeholder-image.svg"
              placeholder := none },
            { type := "text", name := "label", label := "Label"
              configs := none, defaultValue := .str "", placeholder := none },
            { type := "url", name := "to", label := "Link to"
              configs := none, defaultValue := .str "/products"
              placeholder := some "/products" },
            { type := "range", name := "columnSpan", label := "Column span"
              configs := some { min := some 1, max := some 4, step := some 1
                                unit := none, options := [] }
              defaultValue := .num 1, placeholder := none },
            { type := "range", name := "borderRadius", label := "Border radius"
              configs := some { min := some 0, max := some 24, step := some 2
                                unit := some "px", options := [] }
              defaultValue := .num 0, placeholder := none },
            { type := "switch", name := "hideOnMobile", label := "Hide on mobile"
              configs := none, defaultValue := .bool false, placeholder := none },
            { type := "select", name := "labelFontSize", label := "Label Font Size"
              configs := some { min := none, max := none, step := none, unit := none
                                options := [("Extra Small", "xs"), ("Small", "sm"),
                                  ("Base", "base"), ("Large", "lg"),
                                  ("Extra Large", "xl")] }
              defaultValue := .str "base", placeholder := none },
            { type := "select", name := "labelFontWeight", label := "Label Font Weight"
              configs := some { min := none, max := none, step := none, unit := none
                                options := [("Normal", "normal"), ("Medium", "medium"),
                                  ("Semibold", "semibold"), ("Bold", "bold")] }
              defaultValue := .str "normal", placeholder := none },
            { type := "color", name := "labelColor", label := "Label Color"
              configs := none, defaultValue := .str "", placeholder := none }] }] }

/-- All input names declared across a schema's inspector groups. -/
def schemaInputNames (s : ComponentSchema) : List String :=
  (s.inspector.map (fun g => g.inputs.map (fun i => i.name))).flatten

/-- The first inspector input with the given name, if any. -/
def findInput (s : ComponentSchema) (n : String) : Option SchemaInput :=
  ((s.inspector.map (fun g => g.inputs)).flatten).find? (fun i => i.name == n)

/-- Lookup distributes over append: the later list wins. -/
theorem jsLookup_append {α : Type} (l₁ l₂ : List (String × α)) (k : String) :
    jsLookup (l₁ ++ l₂) k =
      match jsLookup l₂ k with
      | some v => some v
      | none => jsLookup l₁ k := by
  induction l₁ with
  | nil =>
    simp only [List.nil_append, jsLookup]
    cases jsLookup l₂ k <;> rfl
  | cons kv l ih =>
    simp only [List.cons_append, jsLookup, List.append_eq, ih]
    cases jsLookup l₂ k <;> cases jsLookup l k <;> rfl

/-- Lookup after rest-destructuring: an omitted key is gone, every other
key resolves as in the original props. -/
theorem jsLookup_omitKeys {α : Type} (ks : List String)
    (l : List (String × α)) (k : String) :
    jsLookup (omitKeys ks l) k = if k ∈ ks then none else jsLookup l k := by
  induction l with
  | nil => simp [omitKeys, jsLookup]
  | cons kv l ih =>
    by_cases hm : kv.1 ∈ ks
    · have : omitKeys ks (kv :: l) = omitKeys ks l := by
        simp [omitKeys, List.filter_cons, hm]
      rw [this, ih]
      by_cases hk : k ∈ ks
      · simp [hk]
      · have hne : kv.1 ≠ k := fun h => hk (h ▸ hm)
        simp only [hk, if_false, jsLookup, hne]
        cases jsLookup l k <;> simp
    · have : omitKeys ks (kv :: l) = kv :: omitKeys ks l := by
        simp [omitKeys, List.filter_cons, hm]
      rw [this]
      by_cases hk : k ∈ ks
      · have hne : kv.1 ≠ k := fun h => hm (h ▸ hk)
        simp only [jsLookup, ih, hk, if_true, hne, if_false]
      · simp only [jsLookup, ih, hk, if_false]

/-- The index-mod-3 filter is invariant under shifting the start by 3. -/
theorem filterIdxAux_mod3_shift {β : Type} (r : Nat) (cs : List β) :
    ∀ i, filterIdxAux (fun j => j % 3 == r) (i + 3) cs
      = filterIdxAux (fun j => j % 3 == r) i cs := by
  induction cs with
  | nil => intro i; rfl
  | cons c cs ih =>
    intro i
    have h3 : (i + 3) % 3 = i % 3 := by omega
    simp only [filterIdxAux, h3]
    have h4 : i + 3 + 1 = i + 1 + 3 := by omega
    rw [h4, ih]

/-- Track 0 takes the head of every group of three. -/
theorem track_zero_cons3 {β : Type} (a b c : β) (ds : List β) :
    track 0 (a :: b :: c :: ds) = a :: track 0 ds := by
  show a :: filterIdxAux (fun j => j % 3 == 0) 3 ds
    = a :: filterIdxAux (fun j => j % 3 == 0) 0 ds
  exact congrArg (List.cons a) (filterIdxAux_mod3_shift 0 ds 0)

/-- Track 1 takes the second element of every group of three. -/
theorem track_one_cons3 {β : Type} (a b c : β) (ds : List β) :
    track 1 (a :: b :: c :: ds) = b :: track 1 ds := by
  show b :: filterIdxAux (fun j => j % 3 == 1) 3 ds
    = b :: filterIdxAux (fun j => j % 3 == 1) 0 ds
  exact congrArg (List.cons b) (filterIdxAux_mod3_shift 1 ds 0)

/-- Track 2 takes the third element of every group of three. -/
theorem track_two_cons3 {β : Type} (a b c : β) (ds : List β) :
    track 2 (a :: b :: c :: ds) = c :: track 2 ds := by
  show c :: filterIdxAux (fun j => j % 3 == 2) 3 ds
    = c :: filterIdxAux (fun j => j % 3 == 2) 0 ds
  exact congrArg (List.cons c) (filterIdxAux_mod3_shift 2 ds 0)

/-- Closed forms for the three track lengths. -/
theorem track_lengths {β : Type} : ∀ cs : List β,
    (track 0 cs).length = (cs.length + 2) / 3 ∧
    (track 1 cs).length = (cs.length + 1) / 3 ∧
    (track 2 cs).length = cs.length / 3
  | [] => by
    refine ⟨?_, ?_, ?_⟩ <;> simp [track, jsFilterWithIndex, filterIdxAux]
  | [a] => by
    refine ⟨?_, ?_, ?_⟩ <;> simp [track, jsFilterWithIndex, filterIdxAux]
  | [a, b] => by
    refine ⟨?_, ?_, ?_⟩ <;> simp [track, jsFilterWithIndex, filterIdxAux]
  | a :: b :: c :: ds => by
    obtain ⟨h0, h1, h2⟩ := track_lengths ds
    refine ⟨?_, ?_, ?_⟩
    · rw [track_zero_cons3]; simp only [List.length_cons, h0]; omega
    · rw [track_one_cons3]; simp only [List.length_cons, h1]; omega
    · rw [track_two_cons3]; simp only [List.length_cons, h2]; omega

/-- An element whose shifted index satisfies the predicate is kept. -/
theorem get_mem_filterIdxAux {β : Type} (p : Nat → Bool) :
    ∀ (cs : List β) (start i : Nat) (h : i < cs.length),
      p (start + i) = true → cs.get ⟨i, h⟩ ∈ filterIdxAux p start cs
  | [], _, i, h => by simp at h
  | c :: cs, start, 0, h => by
    intro hp
    have hs : p start = true := by simpa using hp
    simp only [List.get, filterIdxAux, hs, if_true]
    exact List.mem_cons_self c _
  | c :: cs, start, i + 1, h => by
    intro hp
    have h' : i < cs.length := Nat.lt_of_succ_lt_succ h
    have hp' : p (start + 1 + i) = true := by
      have : start + 1 + i = start + (i + 1) := by omega
      rw [this]; exact hp
    have ih := get_mem_filterIdxAux p cs (start + 1) i h' hp'
    simp only [List.get, filterIdxAux]
    by_cases hs : p start
    · simp only [hs, if_true]
      exact List.mem_cons_of_mem c ih
    · simp only [hs, if_false]
      exact ih

/-- The index filter keeps the original relative order: it produces a
sublist. -/
theorem filterIdxAux_sublist {β : Type} (p : Nat → Bool) :
    ∀ (cs : List β) (i : Nat), List.Sublist (filterIdxAux p i cs) cs
  | [], _ => List.nil_sublist []
  | c :: cs, i => by
    have ih := filterIdxAux_sublist p cs (i + 1)
    simp only [filterIdxAux]
    by_cases hs : p i
    · simp only [hs, if_true]
      exact ih.cons₂ c
    · simp only [hs, if_false]
      exact ih.cons c

/-- Lookup misses on a list none of whose keys is the requested one. -/
theorem jsLookup_eq_none_of_not_mem_keys {α : Type} (l : List (String × α))
    (k : String) (h : k ∉ l.map Prod.fst) : jsLookup l k = none := by
  induction l with
  | nil => rfl
  | cons kv l ih =>
    simp only [List.map_cons, List.mem_cons, not_or] at h
    simp only [jsLookup, ih h.2]
    exact if_neg (fun e => h.1 e.symm)

/-- The gap table misses outside its four keys. -/
theorem gapClass_eq_none {v : Int} (h : v ∉ ([16, 24, 32, 40] : List Int)) :
    gapClass v = none := by
  simp only [List.mem_cons, List.not_mem_nil, or_false, not_or] at h
  simp [gapClass, h.1, h.2.1, h.2.2.1, h.2.2.2]

/-- The columnSpan table hits exactly on its four keys. -/
theorem columnSpanClass_isSome_iff (v : Int) :
    (columnSpanClass v).isSome ↔ v ∈ ([1, 2, 3, 4] : List Int) := by
  unfold columnSpanClass
  split_ifs with h1 h2 h3 h4 <;> simp_all

/-- The columnSpan table misses outside its keys. -/
theorem columnSpanClass_eq_none {v : Int}
    (h : v ∉ ([1, 2, 3, 4] : List Int)) : columnSpanClass v = none := by
  cases hc : columnSpanClass v with
  | none => rfl
  | some c =>
    exact absurd ((columnSpanClass_isSome_iff v).mp (by simp [hc])) h

/-- The borderRadius table misses outside its keys. -/
theorem borderRadiusClass_eq_none {v : Int}
    (h : v ∉ ([0, 2, 4, 6, 8, 10, 12, 14, 16, 18, 20, 22, 24] : List Int)) :
    borderRadiusClass v = none := by
  simp only [List.mem_cons, List.not_mem_nil, or_false, not_or] at h
  obtain ⟨n0, n2, n4, n6, n8, n10, n12, n14, n16, n18, n20, n22, n24⟩ := h
  simp [borderRadiusClass, n0, n2, n4, n6, n8, n10, n12, n14, n16, n18,
    n20, n22, n24]

/-- The borderRadius table hits exactly on its thirteen keys. -/
theorem borderRadiusClass_isSome_iff (v : Int) :
    (borderRadiusClass v).isSome ↔
      v ∈ ([0, 2, 4, 6, 8, 10, 12, 14, 16, 18, 20, 22, 24] : List Int) := by
  constructor
  · intro hs
    by_contra hmem
    rw [borderRadiusClass_eq_none hmem] at hs
    simp at hs
  · intro hmem
    fin_cases hmem <;> decide

/-- Claim C1: for every child sequence (including the empty one) the
grouped-items layout renders exactly three tracks; the child at zero-based
position `i` appears in track `i % 3`; each track preserves the original
relative order (it is a sublist of the children); the three track lengths
sum to the number of children; the track sizes differ by at most one; and
an empty child sequence still yields three rendered, empty tracks. -/
theorem testimonials_partition_claim {β : Type}
    (props : List (String × JSVal β)) :
    (TestimonialsItems props).tracks.length = 3 ∧
    (TestimonialsItems props).tracks =
      [track 0 (childrenOf props), track 1 (childrenOf props),
       track 2 (childrenOf props)] ∧
    (∀ i (h : i < (childrenOf props).length),
      (childrenOf props).get ⟨i, h⟩ ∈ track (i % 3) (childrenOf props)) ∧
    (∀ r : Nat, List.Sublist (track r (childrenOf props)) (childrenOf props)) ∧
    ((track 0 (childrenOf props)).length + (track 1 (childrenOf props)).length +
      (track 2 (childrenOf props)).length = (childrenOf props).length) ∧
    (∀ r s : Nat, r < 3 → s < 3 →
      (track r (childrenOf props)).length ≤
        (track s (childrenOf props)).length + 1) ∧
    (childrenOf props = [] → (TestimonialsItems props).tracks = [[], [], []]) := by
  obtain ⟨h0, h1, h2⟩ := track_lengths (childrenOf props)
  refine ⟨rfl, rfl, ?_, ?_, ?_, ?_, ?_⟩
  · intro i h
    exact get_mem_filterIdxAux _ _ 0 i h (by simp)
  · intro r
    exact filterIdxAux_sublist _ _ 0
  · rw [h0, h1, h2]; omega
  · intro r s hr hs
    interval_cases r <;> interval_cases s <;> simp only [h0, h1, h2] <;> omega
  · intro hnil
    show [track 0 (childrenOf props), track 1 (childrenOf props),
      track 2 (childrenOf props)] = [[], [], []]
    rw [hnil]
    rfl

/-- Witness for C1: four concrete children; the child at position 1 lands
in track 1, and the track sizes differ by at most one. -/
theorem testimonials_partition_claim_witness :
    (20 : Nat) ∈ track (1 % 3)
      (childrenOf ([("children", JSVal.nodes [10, 20, 30, 40])] :
        List (String × JSVal Nat))) ∧
    (track 1 (childrenOf ([("children", JSVal.nodes [10, 20, 30, 40])] :
        List (String × JSVal Nat)))).length ≤
      (track 0 (childrenOf ([("children", JSVal.nodes [10, 20, 30, 40])] :
        List (String × JSVal Nat)))).length + 1 := by
  have h := testimonials_partition_claim (β := Nat)
    [("children", JSVal.nodes [10, 20, 30, 40])]
  exact ⟨h.2.2.1 1 (by decide), h.2.2.2.2.2.1 1 0 (by omega) (by omega)⟩

/-- Claim C7: with seven children and `gap = 24`, the grouped layout
renders tracks `[0,3,6]`, `[1,4]`, `[2,5]` (counts 3, 2, 2) and the root
carries the class mapped from gap 24, `gap-6`. -/
theorem grouped_seven_children_claim :
    (TestimonialsItems ([("gap", JSVal.num 24),
        ("children", JSVal.nodes [0, 1, 2, 3, 4, 5, 6])] :
        List (String × JSVal Nat))).tracks = [[0, 3, 6], [1, 4], [2, 5]] ∧
    ((TestimonialsItems ([("gap", JSVal.num 24),
        ("children", JSVal.nodes [0, 1, 2, 3, 4, 5, 6])] :
        List (String × JSVal Nat))).tracks.map List.length) = [3, 2, 2] ∧
    jsLookup (TestimonialsItems ([("gap", JSVal.num 24),
        ("children", JSVal.nodes [0, 1, 2, 3, 4, 5, 6])] :
        List (String × JSVal Nat))).attrs "className" =
      some (JSVal.str "grid lg:grid-cols-3 gap-6") := by
  refine ⟨by decide, by decide, by decide⟩

/-- Counterexample to C2 as stated: a supplied out-of-enumeration gap
(here 20) does not fall back to the default mapping `gap-8`; the lookup
misses and no spacing class at all is applied. -/
theorem gap_fallback_counterexample :
    testimonialsClassName (some 20) = "grid lg:grid-cols-3" ∧
    testimonialsClassName none = "grid lg:grid-cols-3 gap-8" ∧
    jsLookup (TestimonialsItems ([("gap", JSVal.num 20)] :
        List (String × JSVal Nat))).attrs "className" =
      some (JSVal.str "grid lg:grid-cols-3") ∧
    testimonialsClassName (some 20) ≠ testimonialsClassName none := by
  exact ⟨rfl, rfl, by decide, by decide⟩

/-- Claim C2 (amended): the gap mapping 16 → gap-4, 24 → gap-6,
32 → gap-8, 40 → gap-10 is fixed and exhaustive; an omitted gap resolves
through the declared default 32 to `gap-8`; a supplied gap outside the
enumeration misses the lookup, so no spacing class is applied and the
root class is the bare grid classes.  The root className attribute always
carries exactly this resolved class string. -/
theorem gap_class_mapping_claim {β : Type} :
    cvaResolve gapClass 32 (some 16) = some "gap-4" ∧
    cvaResolve gapClass 32 (some 24) = some "gap-6" ∧
    cvaResolve gapClass 32 (some 32) = some "gap-8" ∧
    cvaResolve gapClass 32 (some 40) = some "gap-10" ∧
    cvaResolve gapClass 32 none = some "gap-8" ∧
    (∀ v : Int, v ∉ ([16, 24, 32, 40] : List Int) →
      cvaResolve gapClass 32 (some v) = none ∧
      testimonialsClassName (some v) = "grid lg:grid-cols-3") ∧
    (∀ props : List (String × JSVal β),
      jsLookup (TestimonialsItems props).attrs "className" =
        some (JSVal.str (testimonialsClassName (gapOf props)))) := by
  refine ⟨rfl, rfl, rfl, rfl, rfl, ?_, ?_⟩
  · intro v hv
    have hn : gapClass v = none := gapClass_eq_none hv
    constructor
    · simp only [cvaResolve, hn]
    · simp only [testimonialsClassName, cvaClass, cvaResolve, hn, cx]
      rfl
  · intro props
    rw [show (TestimonialsItems props).attrs =
        omitKeys testimonialsDeclaredParams props ++
          [("className", JSVal.str (testimonialsClassName (gapOf props)))]
      from rfl, jsLookup_append]
    rfl

/-- Witness for C2 (amended): gap 20 yields no spacing class, and the
className attribute of a concrete render carries the resolved string. -/
theorem gap_class_mapping_claim_witness :
    cvaResolve gapClass 32 (some 20) = none ∧
    testimonialsClassName (some 20) = "grid lg:grid-cols-3" ∧
    jsLookup (TestimonialsItems ([] : List (String × JSVal Nat))).attrs
        "className" =
      some (JSVal.str (testimonialsClassName
        (gapOf ([] : List (String × JSVal Nat))))) := by
  have h := gap_class_mapping_claim (β := Nat)
  obtain ⟨hv1, hv2⟩ := h.2.2.2.2.2.1 20 (by decide)
  exact ⟨hv1, hv2, h.2.2.2.2.2.2 []⟩

/-- Claim C3: columnSpan values 1-4 and borderRadius values 0,2,...,24
each map to exactly one deterministic class (the tables below), every
value outside those enumerations misses the lookup and contributes the
empty class, and the render is total: with both style values out of
range the container still renders with exactly the base classes. -/
theorem image_variant_mapping_claim :
    (∀ v : Int, (columnSpanClass v).isSome ↔ v ∈ ([1, 2, 3, 4] : List Int)) ∧
    (∀ v : Int, (borderRadiusClass v).isSome ↔
      v ∈ ([0, 2, 4, 6, 8, 10, 12, 14, 16, 18, 20, 22, 24] : List Int)) ∧
    ([1, 2, 3, 4] : List Int).map columnSpanClass =
      [some "col-span-1", some "col-span-2", some "col-span-3",
       some "col-span-4"] ∧
    ([0, 2, 4, 6, 8, 10, 12, 14, 16, 18, 20, 22, 24] : List Int).map
        borderRadiusClass =
      [some "", some "rounded-sm", some "rounded", some "rounded-md",
       some "rounded-lg", some "rounded-[10px]", some "rounded-xl",
       some "rounded-[14px]", some "rounded-2xl", some "rounded-[18px]",
       some "rounded-[20px]", some "rounded-[22px]", some "rounded-3xl"] ∧
    (∀ cs br : Int, cs ∉ ([1, 2, 3, 4] : List Int) →
      br ∉ ([0, 2, 4, 6, 8, 10, 12, 14, 16, 18, 20, 22, 24] : List Int) →
      cvaResolve columnSpanClass 1 (some cs) = none ∧
      cvaResolve borderRadiusClass 8 (some br) = none ∧
      imageVariants (some cs) (some br) none = "relative h-[--image-height]" ∧
      imageContainerClass (some cs) (some br) none =
        "relative overflow-hidden relative h-[--image-height]") := by
  refine ⟨columnSpanClass_isSome_iff, borderRadiusClass_isSome_iff,
    by decide, by decide, ?_⟩
  intro cs br hcs hbr
  have h1 : columnSpanClass cs = none := columnSpanClass_eq_none hcs
  have h2 : borderRadiusClass br = none := borderRadiusClass_eq_none hbr
  refine ⟨by simp only [cvaResolve, h1], by simp only [cvaResolve, h2], ?_, ?_⟩
  · simp only [imageVariants, cvaClass, cvaResolve, h1, h2, cx]
    rfl
  · simp only [imageContainerClass, imageVariants, cvaClass, cvaResolve,
      h1, h2, cx]
    rfl

/-- Witness for C3: columnSpan 5 and borderRadius 7 are out of range;
both lookups miss and the container class is exactly the base classes. -/
theorem image_variant_mapping_claim_witness :
    cvaResolve columnSpanClass 1 (some 5) = none ∧
    cvaResolve borderRadiusClass 8 (some 7) = none ∧
    imageVariants (some 5) (some 7) none = "relative h-[--image-height]" ∧
    (columnSpanClass 2).isSome := by
  have h := image_variant_mapping_claim
  obtain ⟨e1, e2, e3, _⟩ := h.2.2.2.2 5 7 (by decide) (by decide)
  exact ⟨e1, e2, e3, (h.1 2).mpr (by decide)⟩

/-- Claim C4: a bare string src `s` is normalized to the structured
descriptor `{ url := s, altText := s }`; an already-structured record
passes through unchanged; and the normalized descriptor is exactly what
the `data` attribute handed to the image renderer carries. -/
theorem src_normalization_claim {β : Type} :
    (∀ s : String, normalizeSrc (β := β) (.str s) =
      .imgObj { url := s, altText := s }) ∧
    (∀ o : WeaverseImage, normalizeSrc (β := β) (.imgObj o) = .imgObj o) ∧
    (∀ (props : List (String × JSVal β)) (v : JSVal β),
      jsLookup props "src" = some v →
      jsLookup (ImageGalleryItem props).imageAttrs "data" =
        some (normalizeSrc v)) := by
  refine ⟨fun s => rfl, fun o => rfl, ?_⟩
  intro props v hv
  have hsrc : srcOf props = v := by simp [srcOf, hv]
  rw [show (ImageGalleryItem props).imageAttrs =
      omitKeys imageDeclaredParams props ++
        imageExtraAttrs (normalizeSrc (srcOf props)) from rfl,
    jsLookup_append, hsrc]
  rfl

/-- Witness for C4: `src = "foo.jpg"` yields the descriptor with url and
alt text both `"foo.jpg"`, handed to the image renderer as `data`. -/
theorem src_normalization_claim_witness :
    jsLookup (ImageGalleryItem ([("src", JSVal.str "foo.jpg")] :
        List (String × JSVal Nat))).imageAttrs "data" =
      some (JSVal.imgObj { url := "foo.jpg", altText := "foo.jpg" }) ∧
    normalizeSrc (β := Nat) (.imgObj { url := "a", altText := "b" }) =
      .imgObj { url := "a", altText := "b" } := by
  have h := src_normalization_claim (β := Nat)
  refine ⟨?_, h.2.1 { url := "a", altText := "b" }⟩
  have := h.2.2 [("src", JSVal.str "foo.jpg")] (JSVal.str "foo.jpg") rfl
  simpa using this

/-- Claim C5: an absent or empty label renders no caption; a non-empty
label renders exactly one caption carrying that text; and when the
typography parameters are omitted the caption carries the default
classes `text-base` and `font-normal`. -/
theorem image_caption_claim {β : Type} (props : List (String × JSVal β)) :
    (jsLookup props "label" = none → (ImageGalleryItem props).caption = none) ∧
    (jsLookup props "label" = some (JSVal.str "") →
      (ImageGalleryItem props).caption = none) ∧
    (∀ s : String, jsLookup props "label" = some (JSVal.str s) → s ≠ "" →
      ∃ cap : CaptionRender,
        (ImageGalleryItem props).caption = some cap ∧ cap.text = s) ∧
    (jsLookup props "label" = some (JSVal.str "Caption") →
      jsLookup props "labelFontSize" = none →
      jsLookup props "labelFontWeight" = none →
      (ImageGalleryItem props).caption = some
        { className := "mt-2 text-center font-sans text-base font-normal"
          colorStyle := captionColorStyle props
          text := "Caption" }) := by
  refine ⟨?_, ?_, ?_, ?_⟩
  · intro h
    show captionOf props = none
    simp [captionOf, labelOf, h]
  · intro h
    show captionOf props = none
    simp [captionOf, labelOf, h]
  · intro s h hs
    refine ⟨{ className := captionClassName props
              colorStyle := captionColorStyle props
              text := s }, ?_, rfl⟩
    show captionOf props = _
    simp [captionOf, labelOf, h, hs]
  · intro h hfs hfw
    have h1 : labelOf props = some "Caption" := by simp [labelOf, h]
    have h2 : labelFontSizeOf props = "base" := by simp [labelFontSizeOf, hfs]
    have h3 : labelFontWeightOf props = "normal" := by
      simp [labelFontWeightOf, hfw]
    show captionOf props = _
    rw [captionOf, h1]
    have hcls : captionClassName props =
        "mt-2 text-center font-sans text-base font-normal" := by
      rw [captionClassName, h2, h3]
      rfl
    simp [hcls]

/-- Witness for C5: a concrete render with `label = "Caption"` and no
typography props yields exactly the default caption; one with an empty
label yields none. -/
theorem image_caption_claim_witness :
    (ImageGalleryItem ([("label", JSVal.str "Caption")] :
        List (String × JSVal Nat))).caption = some
      { className := "mt-2 text-center font-sans text-base font-normal"
        colorStyle := none
        text := "Caption" } ∧
    (ImageGalleryItem ([("label", JSVal.str "")] :
        List (String × JSVal Nat))).caption = none := by
  have h1 := image_caption_claim (β := Nat) [("label", JSVal.str "Caption")]
  have h2 := image_caption_claim (β := Nat) [("label", JSVal.str "")]
  exact ⟨h1.2.2.2 rfl rfl rfl, h2.2.1 rfl⟩

/-- Claim C6: with borderRadius omitted the image tile renders with the
class mapped from the render-time default 8, `rounded-lg`, while the
exported schema declares defaultValue 0 for the borderRadius input; the
two defaults differ. -/
theorem borderRadius_default_mismatch_claim :
    cvaResolve borderRadiusClass 8 none = some "rounded-lg" ∧
    imageVariants none none none =
      "relative h-[--image-height] col-span-1 rounded-lg" ∧
    imageContainerClass none none none =
      "relative overflow-hidden relative h-[--image-height] col-span-1 rounded-lg" ∧
    (findInput imageGallerySchema "borderRadius").map
      (fun i => i.defaultValue) = some (.num 0) ∧
    SchemaDefault.num 0 ≠ SchemaDefault.num 8 := by
  exact ⟨rfl, by decide, by decide, by decide, by decide⟩

/-- Claim C10: the caption carries an inline color exactly when
`labelColor` is a supplied non-empty string: with `labelColor` absent or
empty every rendered caption has no inline style; with a non-empty
`labelColor = c` every rendered caption has inline color `c`. -/
theorem caption_color_claim {β : Type} (props : List (String × JSVal β)) :
    ((jsLookup props "labelColor" = none ∨
        jsLookup props "labelColor" = some (JSVal.str "")) →
      ∀ cap : CaptionRender, (ImageGalleryItem props).caption = some cap →
        cap.colorStyle = none) ∧
    (∀ c : String, c ≠ "" →
      jsLookup props "labelColor" = some (JSVal.str c) →
      ∀ cap : CaptionRender, (ImageGalleryItem props).caption = some cap →
        cap.colorStyle = some c) := by
  have key : ∀ cap : CaptionRender,
      (ImageGalleryItem props).caption = some cap →
      cap.colorStyle = captionColorStyle props := by
    intro cap hc
    have hc' : captionOf props = some cap := hc
    rw [captionOf] at hc'
    cases hl : labelOf props with
    | none => rw [hl] at hc'; simp at hc'
    | some s =>
      rw [hl] at hc'
      by_cases hs : s = ""
      · simp [hs] at hc'
      · simp only [hs, if_false] at hc'
        obtain rfl := Option.some_injective _ hc'.symm
        rfl
  constructor
  · intro h cap hc
    rw [key cap hc]
    rcases h with h | h <;> simp [captionColorStyle, h]
  · intro c hne h cap hc
    rw [key cap hc]
    simp [captionColorStyle, h, hne]

/-- Witness for C10: a render with `labelColor = "red"` gives the caption
inline color red; one without `labelColor` gives no inline style. -/
theorem caption_color_claim_witness :
    CaptionRender.colorStyle
      { className := "mt-2 text-center font-sans text-base font-normal"
        colorStyle := some "red"
        text := "x" } = some "red" ∧
    CaptionRender.colorStyle
      { className := "mt-2 text-center font-sans text-base font-normal"
        colorStyle := none
        text := "x" } = none := by
  have h1 := (caption_color_claim (β := Nat)
    [("label", JSVal.str "x"), ("labelColor", JSVal.str "red")]).2
    "red" (by decide) (by decide)
    { className := "mt-2 text-center font-sans text-base font-normal"
      colorStyle := some "red"
      text := "x" } (by decide)
  have h2 := (caption_color_claim (β := Nat)
    [("label", JSVal.str "x")]).1 (Or.inl (by decide))
    { className := "mt-2 text-center font-sans text-base font-normal"
      colorStyle := none
      text := "x" } (by decide)
  exact ⟨h1, h2⟩

/-- Counterexample to C8 as stated: `className` is not a declared
parameter, yet it is not forwarded unmodified — the explicit `className`
written after the `{...rest}` spread overrides the caller's value on the
root container. -/
theorem prop_passthrough_counterexample :
    "className" ∉ testimonialsDeclaredParams ∧
    jsLookup ([("className", JSVal.str "user-class")] :
        List (String × JSVal Nat)) "className" =
      some (JSVal.str "user-class") ∧
    jsLookup (TestimonialsItems ([("className", JSVal.str "user-class")] :
        List (String × JSVal Nat))).attrs "className" =
      some (JSVal.str "grid lg:grid-cols-3 gap-8") ∧
    jsLookup (TestimonialsItems ([("className", JSVal.str "user-class")] :
        List (String × JSVal Nat))).attrs "className" ≠
      some (JSVal.str "user-class") := by
  exact ⟨by decide, by decide, by decide, by decide⟩

/-- Claim C8 (amended): every received property whose name is neither a
declared parameter nor one of the attribute names the component itself
writes after the spread (`className` for the grouped layout's root;
`className`, `data-motion`, `loading`, `data`, `width`, `height`,
`sizes` for the image renderer) is forwarded unmodified, and the
declared parameters themselves are not forwarded. -/
theorem prop_passthrough_claim {β : Type} (props : List (String × JSVal β))
    (k : String) :
    (k ∉ testimonialsDeclaredParams → k ≠ "className" →
      jsLookup (TestimonialsItems props).attrs k = jsLookup props k) ∧
    (k ∈ testimonialsDeclaredParams →
      jsLookup (TestimonialsItems props).attrs k = none) ∧
    (k ∉ imageDeclaredParams →
      k ∉ (["className", "data-motion", "loading", "data", "width",
        "height", "sizes"] : List String) →
      jsLookup (ImageGalleryItem props).imageAttrs k = jsLookup props k) ∧
    (k ∈ imageDeclaredParams →
      jsLookup (ImageGalleryItem props).imageAttrs k = none) := by
  refine ⟨?_, ?_, ?_, ?_⟩
  · intro h hc
    rw [show (TestimonialsItems props).attrs =
        omitKeys testimonialsDeclaredParams props ++
          [("className", JSVal.str (testimonialsClassName (gapOf props)))]
      from rfl, jsLookup_append]
    have hone : jsLookup ([("className",
        JSVal.str (testimonialsClassName (gapOf props)))] :
          List (String × JSVal β)) k = none := by
      apply jsLookup_eq_none_of_not_mem_keys
      simpa using hc
    rw [hone, jsLookup_omitKeys]
    simp [h]
  · intro h
    have hc : k ≠ "className" := by
      simp only [testimonialsDeclaredParams, List.mem_cons,
        List.not_mem_nil, or_false] at h
      rcases h with rfl | rfl <;> decide
    rw [show (TestimonialsItems props).attrs =
        omitKeys testimonialsDeclaredParams props ++
          [("className", JSVal.str (testimonialsClassName (gapOf props)))]
      from rfl, jsLookup_append]
    have hone : jsLookup ([("className",
        JSVal.str (testimonialsClassName (gapOf props)))] :
          List (String × JSVal β)) k = none := by
      apply jsLookup_eq_none_of_not_mem_keys
      simpa using hc
    rw [hone, jsLookup_omitKeys]
    simp [h]
  · intro h hexp
    rw [show (ImageGalleryItem props).imageAttrs =
        omitKeys imageDeclaredParams props ++
          imageExtraAttrs (normalizeSrc (srcOf props)) from rfl,
      jsLookup_append]
    have hext : jsLookup (imageExtraAttrs (normalizeSrc (srcOf props))) k
        = none := by
      apply jsLookup_eq_none_of_not_mem_keys
      simpa [imageExtraAttrs] using hexp
    rw [hext, jsLookup_omitKeys]
    simp [h]
  · intro h
    have hexp : k ∉ (["className", "data-motion", "loading", "data",
        "width", "height", "sizes"] : List String) := by
      simp only [imageDeclaredParams, List.mem_cons,
        List.not_mem_nil, or_false] at h
      rcases h with rfl | rfl | rfl | rfl | rfl | rfl | rfl | rfl <;> decide
    rw [show (ImageGalleryItem props).imageAttrs =
        omitKeys imageDeclaredParams props ++
          imageExtraAttrs (normalizeSrc (srcOf props)) from rfl,
      jsLookup_append]
    have hext : jsLookup (imageExtraAttrs (normalizeSrc (srcOf props))) k
        = none := by
      apply jsLookup_eq_none_of_not_mem_keys
      simpa [imageExtraAttrs] using hexp
    rw [hext, jsLookup_omitKeys]
    simp [h]

/-- Witness for C8 (amended): a concrete `onClick` handler is forwarded
by both components, while `gap` and `src` are consumed and not
forwarded. -/
theorem prop_passthrough_claim_witness :
    jsLookup (TestimonialsItems ([("onClick", JSVal.num 7)] :
        List (String × JSVal Nat))).attrs "onClick" =
      jsLookup ([("onClick", JSVal.num 7)] :
        List (String × JSVal Nat)) "onClick" ∧
    jsLookup (TestimonialsItems ([("onClick", JSVal.num 7)] :
        List (String × JSVal Nat))).attrs "gap" = none ∧
    jsLookup (ImageGalleryItem ([("onClick", JSVal.num 7)] :
        List (String × JSVal Nat))).imageAttrs "onClick" =
      jsLookup ([("onClick", JSVal.num 7)] :
        List (String × JSVal Nat)) "onClick" ∧
    jsLookup (ImageGalleryItem ([("onClick", JSVal.num 7)] :
        List (String × JSVal Nat))).imageAttrs "src" = none := by
  have h := prop_passthrough_claim (β := Nat) [("onClick", JSVal.num 7)]
    "onClick"
  have h2 := prop_passthrough_claim (β := Nat) [("onClick", JSVal.num 7)]
    "gap"
  have h3 := prop_passthrough_claim (β := Nat) [("onClick", JSVal.num 7)]
    "src"
  exact ⟨h.1 (by decide) (by decide), h2.2.1 (by decide),
    h.2.2.1 (by decide) (by decide), h3.2.2.2 (by decide)⟩

/-- Counterexample to C9 as stated: the image tile's schema declares an
input named `to` ("Link to"), but the component never destructures or
uses a `to` parameter. -/
theorem schema_sync_counterexample :
    "to" ∈ schemaInputNames imageGallerySchema ∧
    "to" ∉ imageDeclaredParams := by
  constructor
  · rw [show schemaInputNames imageGallerySchema =
        ["src", "label", "to", "columnSpan", "borderRadius", "hideOnMobile",
         "labelFontSize", "labelFontWeight", "labelColor"] from rfl]
    decide
  · decide

/-- Claim C9 (amended): the schema input names and the parameter names the
components consume are structurally synchronized except for the single
input `to`, which appears in the image tile's schema only: the grouped
layout's sole input `gap` is consumed, every image-tile input other than
`to` is consumed, and every consumed image-tile parameter appears in its
schema. -/
theorem schema_sync_amended_claim :
    schemaInputNames testimonialsSchema = ["gap"] ∧
    "gap" ∈ testimonialsDeclaredParams ∧
    schemaInputNames imageGallerySchema =
      ["src", "label", "to", "columnSpan", "borderRadius", "hideOnMobile",
       "labelFontSize", "labelFontWeight", "labelColor"] ∧
    (∀ n, n ∈ schemaInputNames imageGallerySchema → n ≠ "to" →
      n ∈ imageDeclaredParams) ∧
    (∀ n, n ∈ imageDeclaredParams → n ∈ schemaInputNames imageGallerySchema) := by
  refine ⟨rfl, by decide, rfl, ?_, ?_⟩
  · intro n hn hne
    rw [show schemaInputNames imageGallerySchema =
        ["src", "label", "to", "columnSpan", "borderRadius", "hideOnMobile",
         "labelFontSize", "labelFontWeight", "labelColor"] from rfl] at hn
    simp only [List.mem_cons, List.not_mem_nil, or_false] at hn
    rcases hn with rfl | rfl | rfl | rfl | rfl | rfl | rfl | rfl | rfl
    · decide
    · decide
    · exact absurd rfl hne
    · decide
    · decide
    · decide
    · decide
    · decide
    · decide
  · intro n hn
    rw [show schemaInputNames imageGallerySchema =
        ["src", "label", "to", "columnSpan", "borderRadius", "hideOnMobile",
         "labelFontSize", "labelFontWeight", "labelColor"] from rfl]
    simp only [imageDeclaredParams, List.mem_cons,
      List.not_mem_nil, or_false] at hn
    rcases hn with rfl | rfl | rfl | rfl | rfl | rfl | rfl | rfl <;> decide

/-- Witness for C9 (amended): the schema input `label` is consumed by the
component, and the consumed parameter `src` appears in the schema. -/
theorem schema_sync_amended_claim_witness :
    "label" ∈ imageDeclaredParams ∧
    "src" ∈ schemaInputNames imageGallerySchema := by
  exact ⟨schema_sync_amended_claim.2.2.2.1 "label"
      (by rw [schema_sync_amended_claim.2.2.1]; decide) (by decide),
    schema_sync_amended_claim.2.2.2.2 "src" (by decide)⟩
